import Mathlib

/-!
Shallow embedding of `src/refiner.py` (Content Refinement Pipeline).

External effects are modelled explicitly:
  - `st.error` / `st.warning` surfaces are lists of messages (or outcome tags);
  - Python exceptions raised by external services are `Except.error`;
  - the transcript service, the PDF parser and the generative-model backend
    are function parameters, so theorems quantify over their behaviour;
  - a streaming response is a finite list of pulls, each pull either yielding
    a chunk's text or raising.
-/

namespace ContentRefiner

/-! ### Transcript Extractor (`extract_youtube_text`, refiner.py lines 39-46) -/

/-- Membership in the regex character class `[0-9A-Za-z_-]` (ASCII, as in Python `re`). -/
def idChar (c : Char) : Bool :=
  c.isDigit || c.isUpper || c.isLower || c == '_' || c == '-'

/-- Embeds the capture group `([0-9A-Za-z_-]{11})`: succeeds iff the suffix starts
with 11 characters of the class, returning them.  The trailing `.*` of the regex
always matches and binds nothing, so it is not modelled. -/
def grab11 (l : List Char) : Option String :=
  let pre := l.take 11
  if pre.length == 11 && pre.all idChar then some (String.mk pre) else none

/-- One attempt of the alternation `(?:v=|\/)` followed by the capture group,
anchored at the head of the suffix: `v=` is tried before `/`, as in the regex. -/
def tryAt : List Char → Option String
  | 'v' :: '=' :: r2 => grab11 r2
  | '/' :: rest => grab11 rest
  | _ => none

/-- Leftmost search, embedding `re.search`: try each start position left to right. -/
def searchId : List Char → Option String
  | [] => none
  | c :: rest =>
    match tryAt (c :: rest) with
    | some vid => some vid
    | none => searchId rest

/-- Embeds `re.search(r"(?:v=|\/)([0-9A-Za-z_-]{11}).*", url)` and `.group(1)`:
`none` when the search fails (in Python `.group(1)` then raises `AttributeError`,
caught by the surrounding `except`). -/
def find_video_id (url : String) : Option String :=
  searchId url.data

/-- One caption record of the transcript service.  The code reads only `t['text']`;
the numeric `start`/`duration` fields are never consumed, so they are omitted. -/
structure Caption where
  text : String
deriving Repr, DecidableEq

/-- Embeds `extract_youtube_text(url)` (lines 39-46).  `fetch` is
`YouTubeTranscriptApi.get_transcript`; an `Except.error` is a raised exception.
Result: the Python return value `(raw_text, video_id)` as a pair of `Option`s,
paired with the list of `st.error` messages surfaced.  Every failure path —
no regex match (the `.group(1)` `AttributeError`) or a raised fetch error — is
caught by the single `except Exception`, surfaces one message and returns
`(None, None)`. -/
def extract_youtube_text (fetch : String → Except String (List Caption)) (url : String) :
    (Option String × Option String) × List String :=
  match find_video_id url with
  | none => ((none, none), ["YouTube Error: no-id-found"])
  | some vid =>
    match fetch vid with
    | .ok transcript =>
        ((some (String.intercalate " " (transcript.map Caption.text)), some vid), [])
    | .error e => ((none, none), ["YouTube Error: " ++ e])

/-! ### Document Extractor (`extract_pdf_text`, refiner.py lines 48-57) -/

/-- Embeds `extract_pdf_text(uploaded_file)` (lines 48-57).  `parse` stands for
`PdfReader` plus `page.extract_text()` over `reader.pages`: on success it yields
the page texts in document order; an `Except.error` is any raised exception
(corrupt file, encrypted content), caught by the `except` which surfaces one
message and returns `None`.  The loop `text += page.extract_text() + "\n"` is
the left fold. -/
def extract_pdf_text {α : Type} (parse : α → Except String (List String)) (uploaded_file : α) :
    Option String × List String :=
  match parse uploaded_file with
  | .ok pages => (some (pages.foldl (fun text p => text ++ (p ++ "\n")) ""), [])
  | .error e => (none, ["PDF Error: " ++ e])

/-! ### Prompt Builder (`sys_prompt` f-string, refiner.py lines 68-83) -/

/-- The f-string text before the `{content_type}` interpolation (line 69 keeps a
trailing space after the interpolation; it belongs to `promptMid`). -/
def promptHead : String :=
  "\n    You are an expert Knowledge Architect. Your goal is to convert the following raw "

/-- The f-string text between the `{content_type}` and `{raw_text}` interpolations,
transcribed byte for byte from lines 69-82 (including the trailing space on
line 69 and the 4-space indentation of every line). -/
def promptMid : String :=
  " \n    into a structured, high-density reference document.\n\n    RULES:\n    1. DO NOT summarize broadly. Retain specific technical details, numbers, step-by-step instructions, and unique examples.\n    2. RESTRUCTURE the content logically. Use H1, H2, and H3 headers.\n    3. If there are distinct concepts, separate them into clear sections.\n    4. Capture the \"Why\" and \"How\", not just the \"What\".\n    5. If the content is a dialogue, extract the key arguments/lessons rather than transcribing the chat.\n    6. Output format: Markdown.\n\n    RAW CONTENT STARTS BELOW:\n    --------------------------\n    "

/-- The f-string text after the `{raw_text}` interpolation (line 83). -/
def promptTail : String :=
  "\n    "

/-- Embeds the `sys_prompt` f-string of `refine_content` (lines 68-83): the fixed
template with `content_type` and `raw_text` interpolated verbatim. -/
def sys_prompt (raw_text content_type : String) : String :=
  promptHead ++ content_type ++ promptMid ++ raw_text ++ promptTail

/-! ### Refinement Invoker (`refine_content`, refiner.py lines 59-91) -/

/-- The generative-model backend (`google.generativeai`).  `configure` is
`genai.configure(api_key=...)`, `GenerativeModel` the constructor, and
`generate_content` the streaming request; each may raise (`Except.error`).
A successful streaming response is a finite list of pulls, each pull either
yielding a chunk's text (`.ok`) or raising mid-stream (`.error`). -/
structure Backend (Model : Type) where
  configure : String → Except String Unit
  GenerativeModel : String → Except String Model
  generate_content : Model → String → Except String (List (Except String String))

/-- Embeds `refine_content(raw_text, content_type)` (lines 59-91) with the
module-level `api_key` / `model_name` passed explicitly.  `genai.configure`
(line 63) and `genai.GenerativeModel` (line 64) run OUTSIDE the `try` block, so
an exception they raise propagates to the caller (`Except.error`).  Only the
`generate_content` call is inside the `try`: its failure is caught, surfaces
one `st.error` message and returns `None`.  The overall value is
`Except.error` for a propagated exception, or `.ok (stream?, messages)` for a
normal return. -/
def refine_content {M : Type} (bk : Backend M) (api_key model_name raw_text content_type : String) :
    Except String (Option (List (Except String String)) × List String) :=
  match bk.configure api_key with
  | .error e => .error e
  | .ok _ =>
    match bk.GenerativeModel model_name with
    | .error e => .error e
    | .ok model =>
      match bk.generate_content model (sys_prompt raw_text content_type) with
      | .ok response => .ok (some response, [])
      | .error e => .ok (none, ["Gemini Error: " ++ e])

/-! ### Stream Aggregator (the `for chunk in stream` loops, lines 113-120 / 146-153) -/

/-- Embeds the aggregation loop
`full_response = ""; for chunk in stream: full_response += chunk.text; output_container.markdown(full_response)`.
Returns the list of accumulator values rendered after each successful pull, and
the loop's terminal state: `.ok full_response` on natural exhaustion, or
`.error e` when a pull raises — there is no `try` around the loop, so the
exception escapes and no further value is rendered. -/
def streamLoop (full_response : String) :
    List (Except String String) → List String × Except String String
  | [] => ([], .ok full_response)
  | .error e :: _ => ([], .error e)
  | .ok chunk :: rest =>
    let next := full_response ++ chunk
    let result := streamLoop next rest
    (next :: result.1, result.2)

/-! ### Main UI flows (tab1 lines 98-128, tab2 lines 131-161) -/

/-- Outcome of one button press, up to the decision whether `refine_content` is
reached.  `warnNoKey` / `warnNoInput` are the `st.warning` branches; `skipped`
is the silent fall-through when the `if raw_text:` truthiness guard fails
(extraction returned `None` or the empty string); `invoked raw_text` marks
reaching the `refine_content(raw_text, ...)` call. -/
inductive TabOutcome where
  | warnNoKey
  | warnNoInput
  | skipped
  | invoked (raw_text : String)
deriving Repr, DecidableEq

/-- Whether the outcome reached the `refine_content` call. -/
def TabOutcome.invokesModel : TabOutcome → Bool
  | .invoked _ => true
  | _ => false

/-- Embeds tab1's button handler (lines 100-116): `if not api_key` warns,
`elif not yt_url` warns, else extract; `if raw_text:` (Python truthiness:
false for `None` and for `""`) guards the `refine_content` call. -/
def tab1_run (api_key yt_url : String) (fetch : String → Except String (List Caption)) :
    TabOutcome :=
  if api_key = "" then .warnNoKey
  else if yt_url = "" then .warnNoInput
  else
    match (extract_youtube_text fetch yt_url).1.1 with
    | some raw_text => if raw_text = "" then .skipped else .invoked raw_text
    | none => .skipped

/-- Embeds tab2's button handler (lines 133-149): `if not api_key` warns,
`elif not uploaded_file` (no file selected, `None`) warns, else extract;
`if raw_text:` guards the `refine_content` call exactly as in tab1. -/
def tab2_run {α : Type} (api_key : String) (uploaded_file : Option α)
    (parse : α → Except String (List String)) : TabOutcome :=
  if api_key = "" then .warnNoKey
  else
    match uploaded_file with
    | none => .warnNoInput
    | some f =>
      match (extract_pdf_text parse f).1 with
      | some raw_text => if raw_text = "" then .skipped else .invoked raw_text
      | none => .skipped

/-! ### Spec-side definitions, written from the spec's words, for refinement
comparisons against the source-side definitions above. -/

/-- Written from the spec: caption fragments "separated by single spaces, in
their original time order", with "no reordering, omission, or other separator". -/
def joinedWithSingleSpaces : List String → String
  | [] => ""
  | [t] => t
  | t :: ts => t ++ " " ++ joinedWithSingleSpaces ts

/-- Written from the spec: "the concatenation, in document page order, of each
page's extracted text followed by a single trailing newline". -/
def pagesEachWithNewline : List String → String
  | [] => ""
  | p :: ps => (p ++ "\n") ++ pagesEachWithNewline ps

/-- Written from the spec: "the concatenation of all fragments in delivery order". -/
def joinChunks : List String → String
  | [] => ""
  | c :: cs => c ++ joinChunks cs

/-- The accumulator values rendered by the loop, as a standalone recursion:
starting from `acc`, each fragment extends the accumulator and the new value is
rendered. -/
def yieldsFrom (acc : String) : List String → List String
  | [] => []
  | c :: cs => (acc ++ c) :: yieldsFrom (acc ++ c) cs

/-! ### Helper lemmas -/

theorem joinedWithSingleSpaces_append_head (bs : List String) (a b : String) :
    joinedWithSingleSpaces ((a ++ " " ++ b) :: bs)
      = a ++ " " ++ joinedWithSingleSpaces (b :: bs) := by
  cases bs with
  | nil => rfl
  | cons c cs =>
    show (a ++ " " ++ b) ++ " " ++ joinedWithSingleSpaces (c :: cs)
        = a ++ " " ++ (b ++ " " ++ joinedWithSingleSpaces (c :: cs))
    simp [String.append_assoc]

theorem intercalate_go_eq (as : List String) (a : String) :
    String.intercalate.go a " " as = joinedWithSingleSpaces (a :: as) := by
  induction as generalizing a with
  | nil => rfl
  | cons b bs ih =>
    show String.intercalate.go (a ++ " " ++ b) " " bs
        = joinedWithSingleSpaces (a :: b :: bs)
    rw [ih (a ++ " " ++ b), joinedWithSingleSpaces_append_head]
    rfl

theorem intercalate_eq_joinedWithSingleSpaces (l : List String) :
    String.intercalate " " l = joinedWithSingleSpaces l := by
  cases l with
  | nil => rfl
  | cons a as => exact intercalate_go_eq as a

theorem foldl_pages_eq (pages : List String) (acc : String) :
    pages.foldl (fun text p => text ++ (p ++ "\n")) acc
      = acc ++ pagesEachWithNewline pages := by
  induction pages generalizing acc with
  | nil => simp [pagesEachWithNewline]
  | cons p ps ih =>
    show ps.foldl (fun text q => text ++ (q ++ "\n")) (acc ++ (p ++ "\n"))
        = acc ++ pagesEachWithNewline (p :: ps)
    rw [ih (acc ++ (p ++ "\n"))]
    show acc ++ (p ++ "\n") ++ pagesEachWithNewline ps
        = acc ++ ((p ++ "\n") ++ pagesEachWithNewline ps)
    rw [String.append_assoc]

theorem streamLoop_map_ok (chunks : List String) (acc : String) :
    streamLoop acc (chunks.map Except.ok)
      = (yieldsFrom acc chunks, Except.ok (acc ++ joinChunks chunks)) := by
  induction chunks generalizing acc with
  | nil => simp [streamLoop, yieldsFrom, joinChunks]
  | cons c cs ih =>
    show ((acc ++ c) :: (streamLoop (acc ++ c) (cs.map Except.ok)).1,
          (streamLoop (acc ++ c) (cs.map Except.ok)).2)
        = (yieldsFrom acc (c :: cs), Except.ok (acc ++ joinChunks (c :: cs)))
    rw [ih (acc ++ c)]
    show ((acc ++ c) :: yieldsFrom (acc ++ c) cs, Except.ok ((acc ++ c) ++ joinChunks cs))
        = ((acc ++ c) :: yieldsFrom (acc ++ c) cs, Except.ok (acc ++ (c ++ joinChunks cs)))
    rw [String.append_assoc]

theorem streamLoop_error_mid (pre : List String) (e : String)
    (rest : List (Except String String)) (acc : String) :
    streamLoop acc (pre.map Except.ok ++ Except.error e :: rest)
      = (yieldsFrom acc pre, Except.error e) := by
  induction pre generalizing acc with
  | nil => rfl
  | cons c cs ih =>
    show ((acc ++ c) :: (streamLoop (acc ++ c) (cs.map Except.ok ++ Except.error e :: rest)).1,
          (streamLoop (acc ++ c) (cs.map Except.ok ++ Except.error e :: rest)).2)
        = (yieldsFrom acc (c :: cs), Except.error e)
    rw [ih (acc ++ c)]
    rfl

theorem yieldsFrom_head (cs : List String) (a y : String)
    (h : (yieldsFrom a cs).head? = some y) : ∃ t, y = a ++ t := by
  cases cs with
  | nil => simp [yieldsFrom] at h
  | cons c cs' =>
    refine ⟨c, ?_⟩
    simpa [yieldsFrom] using h.symm

theorem yieldsFrom_chain (cs : List String) (a : String) :
    List.Chain' (fun x y : String => ∃ t, y = x ++ t) (yieldsFrom a cs) := by
  induction cs generalizing a with
  | nil => simp [yieldsFrom]
  | cons c cs' ih =>
    rw [yieldsFrom, List.chain'_cons']
    exact ⟨fun y hy => yieldsFrom_head cs' (a ++ c) y hy, ih (a ++ c)⟩

theorem yieldsFrom_getLastD (cs : List String) (a : String) :
    (yieldsFrom a cs).getLastD a = a ++ joinChunks cs := by
  induction cs generalizing a with
  | nil => simp [yieldsFrom, joinChunks]
  | cons c cs' ih =>
    rw [yieldsFrom, List.getLastD_cons, ih (a ++ c)]
    show (a ++ c) ++ joinChunks cs' = a ++ (c ++ joinChunks cs')
    rw [String.append_assoc]

/-! ### Concrete fixtures used by witnesses and counterexamples -/

def keySample : String := "AIza-sample"

def modelFlash : String := "gemini-2.0-flash"

def urlShort : String := "v=abcdefghijk"

def urlGood : String := "https://www.youtube.com/watch?v=dQw4w9WgXcQ&list=PL123"

def urlBad : String := "hello world"

def capsTwo : List Caption := [⟨"Hello "⟩, ⟨"world."⟩]

def fetchTwo : String → Except String (List Caption) := fun _ => Except.ok capsTwo

def fetchEmpty : String → Except String (List Caption) := fun _ => Except.ok []

def fetchDown : String → Except String (List Caption) := fun _ => Except.error ("no captions")

def pagesTwo : List String := ["Page one", "Page two"]

def parseTwo : Unit → Except String (List String) := fun _ => Except.ok pagesTwo

def parseZero : Unit → Except String (List String) := fun _ => Except.ok []

def parseCorrupt : Unit → Except String (List String) := fun _ => Except.error ("corrupt file")

def goodStream : List (Except String String) := [Except.ok ("# Title\n"), Except.ok ("Body text.")]

def authFailBackend : Backend Unit :=
  ⟨fun _ => Except.error ("invalid api key"), fun _ => Except.ok (),
    fun _ _ => Except.ok goodStream⟩

def quotaFailBackend : Backend Unit :=
  ⟨fun _ => Except.ok (), fun _ => Except.ok (), fun _ _ => Except.error ("quota exceeded")⟩

/-! ### Characterizations of the tab flows -/

theorem tab1_run_invoked_iff (api_key yt_url : String)
    (fetch : String → Except String (List Caption)) (raw : String) :
    tab1_run api_key yt_url fetch = TabOutcome.invoked raw ↔
      api_key ≠ "" ∧ yt_url ≠ "" ∧
        (extract_youtube_text fetch yt_url).1.1 = some raw ∧ raw ≠ "" := by
  unfold tab1_run
  by_cases hk : api_key = "" <;> simp [hk]
  by_cases hu : yt_url = "" <;> simp [hu]
  cases hx : (extract_youtube_text fetch yt_url).1.1 with
  | none => simp
  | some r =>
    by_cases hr : r = ""
    · simp [hr]
      exact fun h => h.symm
    · simp [hr]
      intro h
      rw [← h]
      exact hr

theorem tab2_run_invoked_iff {α : Type} (api_key : String) (uploaded_file : Option α)
    (parse : α → Except String (List String)) (raw : String) :
    tab2_run api_key uploaded_file parse = TabOutcome.invoked raw ↔
      api_key ≠ "" ∧
        (∃ f, uploaded_file = some f ∧ (extract_pdf_text parse f).1 = some raw) ∧ raw ≠ "" := by
  unfold tab2_run
  by_cases hk : api_key = "" <;> simp [hk]
  cases uploaded_file with
  | none => simp
  | some f =>
    simp only [Option.some.injEq]
    cases hx : (extract_pdf_text parse f).1 with
    | none =>
      simp [hx]
    | some r =>
      by_cases hr : r = ""
      · simp [hr]
        intro h
        rw [hx] at h
        injection h with h2
        exact h2 ▸ hr
      · simp [hr]
        constructor
        · intro h
          exact ⟨by rw [hx, h], by rw [← h]; exact hr⟩
        · intro h
          have h2 := h.1
          rw [hx] at h2
          exact Option.some.inj h2

/-- Claim C10: in both flows, `refine_content` (and hence the generative-model
backend) is reached only when the API key is a non-empty string and the
extraction result is a truthy (non-`None`, non-empty) string. -/
theorem model_invocation_guards {α : Type} (api_key yt_url : String)
    (fetch : String → Except String (List Caption)) (uploaded_file : Option α)
    (parse : α → Except String (List String)) (raw1 raw2 : String) :
    (tab1_run api_key yt_url fetch = TabOutcome.invoked raw1 →
        api_key ≠ "" ∧ (extract_youtube_text fetch yt_url).1.1 = some raw1 ∧ raw1 ≠ "") ∧
    (tab2_run api_key uploaded_file parse = TabOutcome.invoked raw2 →
        api_key ≠ "" ∧
          (∃ f, uploaded_file = some f ∧ (extract_pdf_text parse f).1 = some raw2) ∧
          raw2 ≠ "") := by
  constructor
  · intro h
    have hc := (tab1_run_invoked_iff api_key yt_url fetch raw1).mp h
    exact ⟨hc.1, hc.2.2.1, hc.2.2.2⟩
  · intro h
    exact (tab2_run_invoked_iff api_key uploaded_file parse raw2).mp h

/-- Witness for C10 at concrete inputs: both flows reach the `invoked` outcome
and the theorem's conclusions hold there. -/
theorem model_invocation_guards_witness :
    (keySample ≠ "" ∧
        (extract_youtube_text fetchTwo urlShort).1.1 = some ("Hello  world.") ∧
        ("Hello  world.") ≠ "") ∧
    (keySample ≠ "" ∧
        (∃ f, (some () : Option Unit) = some f ∧
          (extract_pdf_text parseTwo f).1 = some ("Page one\nPage two\n")) ∧
        ("Page one\nPage two\n") ≠ "") :=
  ⟨(model_invocation_guards keySample urlShort fetchTwo (some ()) parseTwo
      ("Hello  world.") ("Page one\nPage two\n")).1 (by decide),
   (model_invocation_guards keySample urlShort fetchTwo (some ()) parseTwo
      ("Hello  world.") ("Page one\nPage two\n")).2 (by decide)⟩

/-- Counterexample to claim C1 at a concrete input: with a valid key and URL,
the transcript service succeeds with an empty caption list, so extraction
succeeds with `raw_text = ""`; yet the flow ends in the `skipped` outcome — the
`if raw_text:` truthiness guard (refiner.py line 109) short-circuits and
`refine_content` is never reached, contradicting "proceeds to invoke the
generative model". -/
theorem empty_extraction_skips_model :
    (extract_youtube_text fetchEmpty urlShort).1.1 = some ("") ∧
    tab1_run keySample urlShort fetchEmpty = TabOutcome.skipped := by
  decide

/-- Claim C1 as amended: a request whose extraction succeeds with an empty
string does NOT proceed to invoke the model; in both flows the `if raw_text:`
truthiness guard treats `""` like `None` and falls through silently (outcome
`skipped`, no warning or error surfaced). -/
theorem empty_extraction_short_circuits {α : Type} (api_key yt_url : String)
    (fetch : String → Except String (List Caption)) (f : α)
    (parse : α → Except String (List String)) :
    ((extract_youtube_text fetch yt_url).1.1 = some "" →
        (tab1_run api_key yt_url fetch).invokesModel = false) ∧
    ((extract_pdf_text parse f).1 = some "" →
        (tab2_run api_key (some f) parse).invokesModel = false) := by
  constructor
  · intro hx
    cases ho : tab1_run api_key yt_url fetch with
    | invoked raw =>
      exfalso
      have hc := (tab1_run_invoked_iff api_key yt_url fetch raw).mp ho
      have h2 := hc.2.2.1
      rw [hx] at h2
      exact hc.2.2.2 (Option.some.inj h2).symm
    | warnNoKey => rfl
    | warnNoInput => rfl
    | skipped => rfl
  · intro hx
    cases ho : tab2_run api_key (some f) parse with
    | invoked raw =>
      exfalso
      have hc := (tab2_run_invoked_iff api_key (some f) parse raw).mp ho
      obtain ⟨g, hg, hgr⟩ := hc.2.1
      cases Option.some.inj hg
      rw [hx] at hgr
      exact hc.2.2 (Option.some.inj hgr).symm
    | warnNoKey => rfl
    | warnNoInput => rfl
    | skipped => rfl

/-- Witness for the amended C1 at concrete inputs: an empty transcript and a
zero-page PDF both skip the model invocation. -/
theorem empty_extraction_short_circuits_witness :
    (tab1_run keySample urlShort fetchEmpty).invokesModel = false ∧
    (tab2_run keySample (some ()) parseZero).invokesModel = false :=
  ⟨(empty_extraction_short_circuits keySample urlShort fetchEmpty () parseZero).1 (by decide),
   (empty_extraction_short_circuits keySample urlShort fetchEmpty () parseZero).2 (by decide)⟩

/-- Counterexample to claim C2 at a concrete input: a backend whose client
configuration raises (rejected credential) makes `refine_content` itself raise
(`Except.error`), because `genai.configure` (refiner.py line 63) runs outside
the `try` block — the failure is neither caught nor converted to `None`. -/
theorem configure_failure_escapes_refine_content :
    refine_content authFailBackend keySample modelFlash ("") ("Video Transcript")
      = Except.error ("invalid api key") := rfl

/-- Claim C2 as amended: only a failure raised by the streaming request itself
(`generate_content`, inside the `try`) is caught, surfaces one user-visible
message and yields `None`; failures during client configuration or model
construction (lines 63-64, before the `try`) propagate to the caller as raised
exceptions.  On success the stream is returned with no message. -/
theorem refine_content_error_boundary {M : Type}
    (api_key model_name raw_text content_type : String) :
    (∀ (bk : Backend M) (e : String), bk.configure api_key = Except.error e →
        refine_content bk api_key model_name raw_text content_type = Except.error e) ∧
    (∀ (bk : Backend M) (e : String), bk.configure api_key = Except.ok () →
        bk.GenerativeModel model_name = Except.error e →
        refine_content bk api_key model_name raw_text content_type = Except.error e) ∧
    (∀ (bk : Backend M) (model : M) (e : String), bk.configure api_key = Except.ok () →
        bk.GenerativeModel model_name = Except.ok model →
        bk.generate_content model (sys_prompt raw_text content_type) = Except.error e →
        refine_content bk api_key model_name raw_text content_type
          = Except.ok (none, [("Gemini Error: ") ++ e])) ∧
    (∀ (bk : Backend M) (model : M) (stream : List (Except String String)),
        bk.configure api_key = Except.ok () →
        bk.GenerativeModel model_name = Except.ok model →
        bk.generate_content model (sys_prompt raw_text content_type) = Except.ok stream →
        refine_content bk api_key model_name raw_text content_type
          = Except.ok (some stream, [])) := by
  refine ⟨?_, ?_, ?_, ?_⟩
  · intro bk e h1
    simp [refine_content, h1]
  · intro bk e h1 h2
    simp [refine_content, h1, h2]
  · intro bk model e h1 h2 h3
    simp [refine_content, h1, h2, h3]
  · intro bk model stream h1 h2 h3
    simp [refine_content, h1, h2, h3]

/-- Witness for the amended C2 at a concrete input: a quota failure raised by
the streaming request is caught and converted to `None` plus one message. -/
theorem refine_content_error_boundary_witness :
    refine_content quotaFailBackend keySample modelFlash ("") ("PDF Document")
      = Except.ok (none, [("Gemini Error: ") ++ ("quota exceeded")]) :=
  (refine_content_error_boundary keySample modelFlash ("") ("PDF Document")).2.2.1
    quotaFailBackend () ("quota exceeded") rfl rfl rfl

/-- Counterexample to claim C3 at a concrete input: a backend error raised on
the second pull of the stream crosses the aggregation-loop boundary as a raised
exception (`Except.error`), since the `for chunk in stream` loop (refiner.py
lines 118-120) has no `try`/`except` around it. -/
theorem midstream_error_escapes_loop :
    (streamLoop ("") [Except.ok ("# Title\n"), Except.error ("backend reset")]).2
      = Except.error ("backend reset") := rfl

/-- Claim C3 as amended: failures inside the Source Extractors, and failures of
the streaming request inside `refine_content`, are caught at those boundaries
and converted to a user-facing message plus a null result; but a client
configuration failure escapes `refine_content` as a raised exception, and a
backend error raised mid-stream escapes the aggregation loop as a raised
exception (the loop terminates early, the values rendered so far being exactly
those for the fragments delivered before the error). -/
theorem component_error_boundaries {α M : Type}
    (api_key model_name raw_text content_type : String) :
    (∀ (fetch : String → Except String (List Caption)) (url vid e : String),
        find_video_id url = some vid → fetch vid = Except.error e →
        extract_youtube_text fetch url = ((none, none), [("YouTube Error: ") ++ e])) ∧
    (∀ (parse : α → Except String (List String)) (f : α) (e : String),
        parse f = Except.error e →
        extract_pdf_text parse f = (none, [("PDF Error: ") ++ e])) ∧
    (∀ (bk : Backend M) (e : String), bk.configure api_key = Except.error e →
        refine_content bk api_key model_name raw_text content_type = Except.error e) ∧
    (∀ (pre : List String) (e : String) (rest : List (Except String String)),
        streamLoop ("") (pre.map Except.ok ++ Except.error e :: rest)
          = (yieldsFrom ("") pre, Except.error e)) := by
  refine ⟨?_, ?_, ?_, ?_⟩
  · intro fetch url vid e h1 h2
    simp [extract_youtube_text, h1, h2]
  · intro parse f e h
    simp [extract_pdf_text, h]
  · intro bk e h
    simp [refine_content, h]
  · intro pre e rest
    exact streamLoop_error_mid pre e rest ("")

/-- Witness for the amended C3 at concrete inputs: a failing transcript fetch
and a corrupt PDF are caught with one message each; a configuration failure
escapes the invoker; a third-pull stream error escapes the loop after the two
delivered fragments were rendered. -/
theorem component_error_boundaries_witness :
    extract_youtube_text fetchDown urlShort
        = ((none, none), [("YouTube Error: ") ++ ("no captions")]) ∧
    extract_pdf_text parseCorrupt ()
        = (none, [("PDF Error: ") ++ ("corrupt file")]) ∧
    refine_content authFailBackend keySample modelFlash ("") ("Video Transcript")
        = Except.error ("invalid api key") ∧
    streamLoop ("") [Except.ok ("# T"), Except.ok ("itle"), Except.error ("reset")]
        = (yieldsFrom ("") [("# T"), ("itle")], Except.error ("reset")) :=
  ⟨(@component_error_boundaries Unit Unit keySample modelFlash ("") ("Video Transcript")).1
      fetchDown urlShort ("abcdefghijk") ("no captions") (by decide) rfl,
   (@component_error_boundaries Unit Unit keySample modelFlash ("") ("Video Transcript")).2.1
      parseCorrupt () ("corrupt file") rfl,
   (@component_error_boundaries Unit Unit keySample modelFlash ("") ("Video Transcript")).2.2.1
      authFailBackend ("invalid api key") rfl,
   (@component_error_boundaries Unit Unit keySample modelFlash ("") ("Video Transcript")).2.2.2
      [("# T"), ("itle")] ("reset") []⟩

/-- Claim C4: over any finite fragment sequence, the accumulator values rendered
after each fragment form a chain in which each value extends the previous one
(so lengths are non-decreasing and each value is an initial segment of the
next), and the loop's final accumulator equals the concatenation of all
fragments in delivery order. -/
theorem aggregator_monotone_and_complete (chunks : List String) :
    List.Chain' (fun x y : String => ∃ t, y = x ++ t)
        (streamLoop ("") (chunks.map Except.ok)).1 ∧
    List.Chain' (fun x y : String => x.length ≤ y.length)
        (streamLoop ("") (chunks.map Except.ok)).1 ∧
    ((streamLoop ("") (chunks.map Except.ok)).1).getLastD ("") = joinChunks chunks ∧
    (streamLoop ("") (chunks.map Except.ok)).2 = Except.ok (joinChunks chunks) := by
  rw [streamLoop_map_ok]
  exact ⟨yieldsFrom_chain chunks (""),
    (yieldsFrom_chain chunks ("")).imp (fun a b hab => by
      obtain ⟨t, ht⟩ := hab
      subst ht
      rw [String.length_append]
      exact Nat.le_add_right _ _),
    yieldsFrom_getLastD chunks (""), rfl⟩

/-- Claim C5: whenever the identifier regex finds no match in the URL,
`extract_youtube_text` returns `(None, None)` and surfaces exactly one error
message (the `.group(1)` failure is swallowed by the `except`, so nothing is
raised to the caller — the embedding returns normally on every input). -/
theorem malformed_url_yields_none_one_error
    (fetch : String → Except String (List Caption)) (url : String)
    (h : find_video_id url = none) :
    (extract_youtube_text fetch url).1 = (none, none) ∧
    (extract_youtube_text fetch url).2.length = 1 := by
  simp [extract_youtube_text, h]

/-- Witness for C5 at a concrete malformed URL. -/
theorem malformed_url_yields_none_one_error_witness :
    (extract_youtube_text fetchTwo urlBad).1 = (none, none) ∧
    (extract_youtube_text fetchTwo urlBad).2.length = 1 :=
  malformed_url_yields_none_one_error fetchTwo urlBad (by decide)

/-- Claim C6: whenever the regex search recovers an identifier (its captured
group), and the transcript fetch for it succeeds, `extract_youtube_text`
returns that identifier (non-`None`), whatever else surrounds it in the URL. -/
theorem valid_url_recovers_id (fetch : String → Except String (List Caption))
    (url vid : String) (caps : List Caption)
    (h1 : find_video_id url = some vid) (h2 : fetch vid = Except.ok caps) :
    (extract_youtube_text fetch url).1.2 = some vid := by
  simp [extract_youtube_text, h1, h2]

/-- Witness for C6 at a decorated URL (scheme, host, extra `list=` query
parameter): the 11-character identifier after `v=` is recovered. -/
theorem valid_url_recovers_id_witness :
    (extract_youtube_text fetchTwo urlGood).1.2 = some ("dQw4w9WgXcQ") :=
  valid_url_recovers_id fetchTwo urlGood ("dQw4w9WgXcQ") capsTwo (by decide) rfl

/-- Claim C7: on a successful fetch, the returned raw text is exactly the
caption text fragments joined with single spaces, in their original order, with
no reordering, omission, or other separator (`" ".join`). -/
theorem transcript_space_join (fetch : String → Except String (List Caption))
    (url vid : String) (caps : List Caption)
    (h1 : find_video_id url = some vid) (h2 : fetch vid = Except.ok caps) :
    (extract_youtube_text fetch url).1.1
      = some (joinedWithSingleSpaces (caps.map Caption.text)) := by
  simp [extract_youtube_text, h1, h2, intercalate_eq_joinedWithSingleSpaces]

/-- Witness for C7 at the spec's own scenario: fragments `"Hello "` and
`"world."` join to `"Hello  world."` (double space preserved). -/
theorem transcript_space_join_witness :
    (extract_youtube_text fetchTwo urlShort).1.1 = some ("Hello  world.") :=
  (transcript_space_join fetchTwo urlShort ("abcdefghijk") capsTwo
    (by decide) rfl).trans (by decide)

/-- Claim C8: on a parseable PDF, the returned string is the concatenation, in
document page order, of each page's text followed by a single newline, and
nothing else. -/
theorem pdf_pages_concat {α : Type} (parse : α → Except String (List String)) (f : α)
    (pages : List String) (h : parse f = Except.ok pages) :
    (extract_pdf_text parse f).1 = some (pagesEachWithNewline pages) := by
  simp [extract_pdf_text, h, foldl_pages_eq]

/-- Witness for C8 at a concrete two-page document. -/
theorem pdf_pages_concat_witness :
    (extract_pdf_text parseTwo ()).1 = some ("Page one\nPage two\n") :=
  (pdf_pages_concat parseTwo () pagesTwo rfl).trans (by decide)

/-- The part of `promptMid` before its final delimiter line. -/
def promptMidStem : String :=
  " \n    into a structured, high-density reference document.\n\n    RULES:\n    1. DO NOT summarize broadly. Retain specific technical details, numbers, step-by-step instructions, and unique examples.\n    2. RESTRUCTURE the content logically. Use H1, H2, and H3 headers.\n    3. If there are distinct concepts, separate them into clear sections.\n    4. Capture the \"Why\" and \"How\", not just the \"What\".\n    5. If the content is a dialogue, extract the key arguments/lessons rather than transcribing the chat.\n    6. Output format: Markdown.\n\n    RAW CONTENT STARTS BELOW:\n    "

set_option maxRecDepth 4000 in
theorem promptMid_split :
    promptMid = promptMidStem ++ ("--------------------------\n    ") := by
  decide

/-- Claim C9: for every raw text and content type, the constructed prompt is
literally `pre ++ raw_text ++ post` where `pre` ends with the delimiter line —
the raw text appears verbatim, contiguously, after the delimiter, with no
truncation, chunking, splitting, or escaping; `post` is the fixed f-string tail. -/
theorem prompt_embeds_raw_text_verbatim (raw_text content_type : String) :
    ∃ pre post, sys_prompt raw_text content_type = pre ++ raw_text ++ post ∧
      (∃ q, pre = q ++ ("--------------------------\n    ")) ∧ post = promptTail := by
  refine ⟨promptHead ++ content_type ++ promptMid, promptTail, ?_,
    ⟨promptHead ++ content_type ++ promptMidStem, ?_⟩, rfl⟩
  · simp [sys_prompt, String.append_assoc]
  · rw [promptMid_split]
    simp [String.append_assoc]

end ContentRefiner
